import Mathlib

/-!
Verification of the cmdrx LLM-provider core: a shallow embedding of the
structured-result parser (`core.py`), the credential resolver
(`config.py`), and the request dispatcher / validator / client factory
(`llm.py`), with theorems settling the specification claims.
-/

namespace CmdRx

/-! ## JSON values

Model of the Python values produced by `json.loads`: `null`, booleans,
numbers (kept as their source literal, since the program never computes
with them), strings, lists, and dicts (association lists in insertion
order, duplicate keys collapsed last-value-wins as `json.loads` does). -/

inductive Json where
  | null
  | bool (b : Bool)
  | num (lit : String)
  | str (s : String)
  | arr (elems : List Json)
  | obj (members : List (String × Json))
deriving Repr

/-- Python dict assignment `d[k] = v`: replace the value in place if the
key is present (keeping its original position), else append. -/
def dictInsert (k : String) (v : Json) : List (String × Json) → List (String × Json)
  | [] => [(k, v)]
  | (k', v') :: rest =>
      if k' = k then (k, v) :: rest else (k', v') :: dictInsert k v rest

/-- Python `d.get(k)` on a dict: `None` when the key is absent. -/
def dictGet? (k : String) : List (String × Json) → Option Json
  | [] => none
  | (k', v) :: rest => if k' = k then some v else dictGet? k rest

def removeKey (k : String) : List (String × Json) → List (String × Json)
  | [] => []
  | (k', v) :: rest => if k' = k then rest else (k', v) :: removeKey k rest

/-- Combine an object's first member with the dict built from the
remaining members, the way CPython builds a dict from pairs: on a
duplicate key the first occurrence keeps its position but the later
value wins. -/
def objCombine (k : String) (v : Json) (ms : List (String × Json)) :
    List (String × Json) :=
  match dictGet? k ms with
  | some v' => (k, v') :: removeKey k ms
  | none => (k, v) :: ms

/-! ## A parser for `json.loads`

Recursive-descent parser over the character list, with fuel for
termination.  It follows the strict-mode behaviour of Python's `json`
module: the only whitespace is space/tab/newline/carriage-return,
strings are double-quoted with the standard escapes and reject raw
control characters, numbers follow the JSON grammar (plus the Python
extensions `NaN`, `Infinity`, `-Infinity`), arrays and objects reject
trailing commas, and trailing garbage after the top-level value is an
error. -/

def isJsonWs (c : Char) : Bool :=
  c = ' ' ∨ c = '\t' ∨ c = '\n' ∨ c = '\r'

def skipWs : List Char → List Char
  | [] => []
  | c :: rest => if isJsonWs c then skipWs rest else c :: rest

def hexVal (c : Char) : Option Nat :=
  if '0' ≤ c ∧ c ≤ '9' then some (c.toNat - '0'.toNat)
  else if 'a' ≤ c ∧ c ≤ 'f' then some (c.toNat - 'a'.toNat + 10)
  else if 'A' ≤ c ∧ c ≤ 'F' then some (c.toNat - 'A'.toNat + 10)
  else none

/-- Parse the body of a JSON string (the opening quote already
consumed), returning the decoded string and the rest of the input. -/
def parseJString (acc : List Char) : List Char → Option (String × List Char)
  | [] => none
  | c :: rest =>
    if c = '"' then some (String.mk acc.reverse, rest)
    else if c = '\\' then
      match rest with
      | [] => none
      | e :: rest' =>
        if e = '"' then parseJString ('"' :: acc) rest'
        else if e = '\\' then parseJString ('\\' :: acc) rest'
        else if e = '/' then parseJString ('/' :: acc) rest'
        else if e = 'b' then parseJString (Char.ofNat 8 :: acc) rest'
        else if e = 'f' then parseJString (Char.ofNat 12 :: acc) rest'
        else if e = 'n' then parseJString ('\n' :: acc) rest'
        else if e = 'r' then parseJString ('\r' :: acc) rest'
        else if e = 't' then parseJString ('\t' :: acc) rest'
        else if e = 'u' then
          match rest' with
          | h1 :: h2 :: h3 :: h4 :: rest'' =>
            match hexVal h1, hexVal h2, hexVal h3, hexVal h4 with
            | some a, some b, some c', some d =>
                parseJString (Char.ofNat (((a * 16 + b) * 16 + c') * 16 + d) :: acc) rest''
            | _, _, _, _ => none
          | _ => none
        else none
    else if c.toNat < 32 then none
    else parseJString (c :: acc) rest

def isDigit (c : Char) : Bool := '0' ≤ c ∧ c ≤ '9'

def takeDigits : List Char → (List Char × List Char)
  | [] => ([], [])
  | c :: rest =>
    if isDigit c then
      let (ds, r) := takeDigits rest
      (c :: ds, r)
    else ([], c :: rest)

/-- Parse the unsigned part of a JSON number literal (after an optional
leading minus), returning the matched characters. -/
def parseNumBody (cs : List Char) : Option (List Char × List Char) :=
  match cs with
  | [] => none
  | c :: rest =>
    if c = '0' then
      some ([c], rest)
    else if isDigit c then
      let (ds, r) := takeDigits rest
      some (c :: ds, r)
    else none

/-- Optional fraction part `.digits`. -/
def parseFrac (cs : List Char) : Option (List Char × List Char) :=
  match cs with
  | '.' :: rest =>
    match takeDigits rest with
    | ([], _) => none
    | (ds, r) => some ('.' :: ds, r)
  | _ => some ([], cs)

/-- Optional exponent part `[eE][+-]?digits`. -/
def parseExp (cs : List Char) : Option (List Char × List Char) :=
  match cs with
  | e :: rest =>
    if e = 'e' ∨ e = 'E' then
      let (sgn, rest') := match rest with
        | s :: r => if s = '+' ∨ s = '-' then ([s], r) else (([] : List Char), s :: r)
        | [] => ([], [])
      match takeDigits rest' with
      | ([], _) => none
      | (ds, r) => some (e :: sgn ++ ds, r)
    else some ([], e :: rest)
  | [] => some ([], [])

def parseNumber (neg : Bool) (cs : List Char) : Option (Json × List Char) :=
  match parseNumBody cs with
  | none => none
  | some (intPart, r1) =>
    match parseFrac r1 with
    | none => none
    | some (fracPart, r2) =>
      match parseExp r2 with
      | none => none
      | some (expPart, r3) =>
        let lit := (if neg then "-" else "") ++ String.mk (intPart ++ fracPart ++ expPart)
        some (Json.num lit, r3)

def startsWith (pfx : List Char) (cs : List Char) : Option (List Char) :=
  match pfx, cs with
  | [], rest => some rest
  | p :: ps, c :: rest => if c = p then startsWith ps rest else none
  | _ :: _, [] => none

mutual

/-- Parse one JSON value (leading whitespace skipped first). -/
def parseValue (fuel : Nat) (cs : List Char) : Option (Json × List Char) :=
  match fuel with
  | 0 => none
  | fuel + 1 =>
    match skipWs cs with
    | [] => none
    | c :: rest =>
      if c = '"' then
        match parseJString [] rest with
        | some (s, r) => some (Json.str s, r)
        | none => none
      else if c = '{' then parseObjBody fuel true rest
      else if c = '[' then parseArrBody fuel true rest
      else if c = '-' then
        match startsWith ['I', 'n', 'f', 'i', 'n', 'i', 't', 'y'] rest with
        | some r => some (Json.num "-Infinity", r)
        | none => parseNumber true rest
      else if isDigit c then parseNumber false (c :: rest)
      else
        match startsWith ['t', 'r', 'u', 'e'] (c :: rest) with
        | some r => some (Json.bool true, r)
        | none =>
        match startsWith ['f', 'a', 'l', 's', 'e'] (c :: rest) with
        | some r => some (Json.bool false, r)
        | none =>
        match startsWith ['n', 'u', 'l', 'l'] (c :: rest) with
        | some r => some (Json.null, r)
        | none =>
        match startsWith ['N', 'a', 'N'] (c :: rest) with
        | some r => some (Json.num "NaN", r)
        | none =>
        match startsWith ['I', 'n', 'f', 'i', 'n', 'i', 't', 'y'] (c :: rest) with
        | some r => some (Json.num "Infinity", r)
        | none => none

/-- Parse the members of an object after `{` (or after a comma). -/
def parseObjBody (fuel : Nat) (first : Bool) (cs : List Char) :
    Option (Json × List Char) :=
  match fuel with
  | 0 => none
  | fuel + 1 =>
    match skipWs cs with
    | [] => none
    | c :: rest =>
      if first ∧ c = '}' then some (Json.obj [], rest)
      else if c = '"' then
        match parseJString [] rest with
        | none => none
        | some (k, r1) =>
          match skipWs r1 with
          | ':' :: r2 =>
            match parseValue fuel r2 with
            | none => none
            | some (v, r3) =>
              match skipWs r3 with
              | '}' :: r4 => some (Json.obj [(k, v)], r4)
              | ',' :: r4 =>
                match parseObjBody fuel false r4 with
                | some (Json.obj ms, r5) => some (Json.obj (objCombine k v ms), r5)
                | _ => none
              | _ => none
          | _ => none
      else none

/-- Parse the elements of an array after `[` (or after a comma). -/
def parseArrBody (fuel : Nat) (first : Bool) (cs : List Char) :
    Option (Json × List Char) :=
  match fuel with
  | 0 => none
  | fuel + 1 =>
    match skipWs cs with
    | [] => none
    | c :: rest =>
      if first ∧ c = ']' then some (Json.arr [], rest)
      else
        match parseValue fuel (c :: rest) with
        | none => none
        | some (v, r1) =>
          match skipWs r1 with
          | ']' :: r2 => some (Json.arr [v], r2)
          | ',' :: r2 =>
            match parseArrBody fuel false r2 with
            | some (Json.arr vs, r3) => some (Json.arr (v :: vs), r3)
            | _ => none
          | _ => none

end

/-- Model of Python's `json.loads`: `none` exactly when `json.loads`
raises `JSONDecodeError`. -/
def jsonLoads (s : String) : Option Json :=
  match parseValue (s.length + 1) s.data with
  | some (v, rest) => if skipWs rest = [] then some v else none
  | none => none

end CmdRx
namespace CmdRx

/-! ## Structured-result parser (`core.py`, `_process_llm_response`)

The parse step does `json.loads` on the reply content and, on
`JSONDecodeError`, substitutes the fixed fallback dict. -/

/-- The fallback dict built in the `except json.JSONDecodeError` branch
of `_process_llm_response`. -/
def fallbackAnalysis (content : String) : Json :=
  Json.obj
    [ ("analysis", Json.str content),
      ("status", Json.str "info"),
      ("issues", Json.arr []),
      ("troubleshooting_steps", Json.arr []),
      ("suggested_fixes", Json.arr []),
      ("additional_info", Json.str "") ]

/-- The `analysis_data` value `_process_llm_response` hands onward:
the decoded JSON when `json.loads` succeeds, the fallback dict when it
raises. -/
def processLLMResponse (content : String) : Json :=
  match jsonLoads content with
  | some v => v
  | none => fallbackAnalysis content

/-- The per-field values `_display_analysis` reads out of
`analysis_data`, with the defaults the code passes to `.get`. -/
structure DisplayedAnalysis where
  analysis : Json
  status : Json
  issues : Json
  troubleshooting_steps : Json
  suggested_fixes : Json
  additional_info : Json
deriving Repr

/-- `_display_analysis`'s reads of `analysis_data`: each field comes
from `analysis_data.get(key, default)` with the default written in the
code.  `.get` only exists on a dict; on any other value the call raises
`AttributeError`, modelled as `none`. -/
def displayAnalysis (d : Json) : Option DisplayedAnalysis :=
  match d with
  | Json.obj ms =>
      some
        { analysis := (dictGet? "analysis" ms).getD (Json.str "No analysis provided"),
          status := (dictGet? "status" ms).getD (Json.str "info"),
          issues := (dictGet? "issues" ms).getD (Json.arr []),
          troubleshooting_steps :=
            (dictGet? "troubleshooting_steps" ms).getD (Json.arr []),
          suggested_fixes := (dictGet? "suggested_fixes" ms).getD (Json.arr []),
          additional_info := (dictGet? "additional_info" ms).getD (Json.str "") }
  | _ => none

end CmdRx

namespace CmdRx

/-! ## Error kinds (`exceptions.py`)

The exception classes the core raises; each carries only its message
(`str(e)` is the message). -/

inductive CmdRxErr where
  | configurationError (msg : String)
  | llmError (msg : String)
  | securityError (msg : String)
deriving Repr, DecidableEq

def CmdRxErr.message : CmdRxErr → String
  | .configurationError m => m
  | .llmError m => m
  | .securityError m => m

/-! ## Credential resolver (`config.py`)

`_get_credential` and `_store_credential` interact with the platform
keyring, the process environment and the credentials file; those
collaborators enter the model as an explicit environment record.  An
`Except` value models a call that either returns or raises. -/

/-- Python truthiness of an `Optional[str]`: `None` and `""` are falsy. -/
def nonEmptyVal : Option String → Option String
  | some s => if s = "" then none else some s
  | none => none

/-- Python `d.get(k)` on a string-valued dict. -/
def credsGet (k : String) : List (String × String) → Option String
  | [] => none
  | (k', v) :: rest => if k' = k then some v else credsGet k rest

/-- Python `k in d` on a string-valued dict. -/
def hasCred (creds : List (String × String)) (k : String) : Bool :=
  (credsGet k creds).isSome

/-- Python dict assignment `d[k] = v` on a string-valued dict. -/
def credsInsert (k v : String) : List (String × String) → List (String × String)
  | [] => [(k, v)]
  | (k', v') :: rest =>
      if k' = k then (k, v) :: rest else (k', v') :: credsInsert k v rest

/-- The collaborators one `_get_credential` call consults.
`keyring` is the outcome of `keyring.get_password` (a value, or a raised
exception's message); `getenv` is `os.getenv`; `fileExists` is
`creds_file.exists()`; `fileRead` is the outcome of opening the file,
`json.load`-ing it and treating it as a string dict (an exception from
any of those is the `error` case). -/
structure CredentialEnv where
  keyring : Except String (Option String)
  getenv : String → Option String
  fileExists : Bool
  fileRead : Except String (List (String × String))

/-- `_get_credential`: keyring, then `CMDRX_<KEY>` environment
variable, then the credentials file; every source failure is swallowed
and the next source is consulted; `none` when all are exhausted. -/
def getCredential (env : CredentialEnv) (key : String) : Option String :=
  let fromKeyring : Option String :=
    match env.keyring with
    | .ok credential => nonEmptyVal credential
    | .error _ => none
  match fromKeyring with
  | some credential => some credential
  | none =>
    let env_var := "CMDRX_" ++ key.toUpper
    match nonEmptyVal (env.getenv env_var) with
    | some credential => some credential
    | none =>
      if env.fileExists then
        match env.fileRead with
        | .ok creds => nonEmptyVal (credsGet key creds)
        | .error _ => none
      else none

/-- What the secure store yields for the resolution chain, in the
spec's terms: its value when it returns one that is non-empty, nothing
when it is unavailable or empty-handed. -/
def keyringYield (env : CredentialEnv) : Option String :=
  match env.keyring with
  | .ok credential => nonEmptyVal credential
  | .error _ => none

/-- What the environment variable `CMDRX_<KEY>` yields. -/
def envYield (env : CredentialEnv) (key : String) : Option String :=
  nonEmptyVal (env.getenv ("CMDRX_" ++ key.toUpper))

/-- What the credentials file yields: the key's non-empty value when
the file exists and reads as a mapping, nothing otherwise. -/
def fileYield (env : CredentialEnv) (key : String) : Option String :=
  if env.fileExists then
    match env.fileRead with
    | .ok creds => nonEmptyVal (credsGet key creds)
    | .error _ => none
  else none

/-- The resolution chain as §4.1 of the spec words it: consult the
three sources in the fixed order and take the first non-empty value. -/
def resolveSpec (env : CredentialEnv) (key : String) : Option String :=
  (keyringYield env).orElse fun _ =>
    (envYield env key).orElse fun _ =>
      fileYield env key

/-- The collaborators one `_store_credential` call touches.
`keyringSet` is the outcome of `keyring.set_password`; `fileWrite` is
the outcome of opening the credentials file for writing, dumping the
JSON and `os.chmod`-ing it. -/
structure StoreEnv where
  keyringSet : Except String Unit
  fileExists : Bool
  fileRead : Except String (List (String × String))
  fileWrite : Except String Unit

/-- Where a successful `_store_credential` left the secret: in the
keyring, or in the credentials file with the recorded contents and
permission bits. -/
inductive StoreOutcome where
  | keyring
  | file (contents : List (String × String)) (mode : Nat)
deriving Repr, DecidableEq

/-- The `# Load existing credentials` block of `_store_credential`:
start from `{}`, and when the file exists and reads cleanly take its
entries (a read exception is swallowed, leaving `{}`). -/
def loadedCreds (env : StoreEnv) : List (String × String) :=
  if env.fileExists then
    match env.fileRead with
    | .ok existing => existing
    | .error _ => []
  else []

/-- `_store_credential`: try the keyring; on any exception fall back to
the credentials file, merging into its existing readable entries
(unreadable or missing file starts from `{}`), writing with mode
`0o600`, and raising `SecurityError` only when that write fails. -/
def storeCredential (env : StoreEnv) (key value : String) :
    Except CmdRxErr StoreOutcome :=
  match env.keyringSet with
  | .ok _ => .ok .keyring
  | .error _ =>
    let creds := credsInsert key value (loadedCreds env)
    match env.fileWrite with
    | .ok _ => .ok (.file creds 0o600)
    | .error e =>
        .error (.securityError
          ("Failed to store credential \x27" ++ key ++ "\x27: " ++ e))

end CmdRx
namespace CmdRx

/-! ## LLM provider layer (`llm.py`)

The configuration dict is modelled with one `Option` field per key the
module reads (`none` is an absent key, so `config.get(k, d)` is
`(field).getD d` and `config.get(k)` is the field itself).  The network
collaborators (the OpenAI-compatible client and the Anthropic client)
enter as `Except` values: a reply, or a raised exception. -/

structure LLMConfig where
  llm_provider : Option String
  llm_model : Option String
  llm_auth_type : Option String
  llm_base_url : Option String
  llm_timeout : Option Nat
deriving Repr, DecidableEq

/-- Python truthiness of `config.get(key)` results: absent or `""`. -/
def isFalsy : Option String → Bool
  | none => true
  | some s => s = ""

/-- `self.provider = self.config.get('llm_provider', 'openai')`. -/
def providerOf (config : LLMConfig) : String :=
  config.llm_provider.getD "openai"

/-- `LLMResponse` (`llm.py`).  `content` is typed `str` in the source
but is assigned `message.content` verbatim on the OpenAI path, which
the client library types `Optional[str]`; hence `Option String`. -/
structure LLMResponse where
  content : Option String
  model : String
  usage : Option (List (String × Nat)) := none
  response_time : Nat := 0
  provider : String := ""
deriving Repr, DecidableEq

/-- An exception raised by the network client library, by failure
kind; `message` is its `str(e)`. -/
inductive NetExc where
  | connectionError (msg : String)
  | timeout (msg : String)
  | httpStatus (status : Nat) (msg : String)
  | malformedBody (msg : String)
deriving Repr, DecidableEq

def NetExc.message : NetExc → String
  | .connectionError m => m
  | .timeout m => m
  | .httpStatus _ m => m
  | .malformedBody m => m

/-- Wire shape of an OpenAI-style chat-completion reply, as far as the
code reads it. -/
structure OpenAIMessage where
  content : Option String
deriving Repr, DecidableEq

structure OpenAIChoice where
  message : OpenAIMessage
deriving Repr, DecidableEq

structure OpenAIUsage where
  prompt_tokens : Nat
  completion_tokens : Nat
  total_tokens : Nat
deriving Repr, DecidableEq

structure OpenAIReply where
  choices : List OpenAIChoice
  usage : Option OpenAIUsage
deriving Repr, DecidableEq

/-- Wire shape of an Anthropic messages reply, as far as the code
reads it. -/
structure AnthropicBlock where
  text : String
deriving Repr, DecidableEq

structure AnthropicUsage where
  input_tokens : Nat
  output_tokens : Nat
deriving Repr, DecidableEq

structure AnthropicReply where
  content : List AnthropicBlock
  usage : Option AnthropicUsage
deriving Repr, DecidableEq

/-- The usage dict built on the OpenAI-compatible path. -/
def openaiUsageDict (u : OpenAIUsage) : List (String × Nat) :=
  [ ("prompt_tokens", u.prompt_tokens),
    ("completion_tokens", u.completion_tokens),
    ("total_tokens", u.total_tokens) ]

/-- The usage dict built on the Anthropic path. -/
def anthropicUsageDict (u : AnthropicUsage) : List (String × Nat) :=
  [ ("input_tokens", u.input_tokens),
    ("output_tokens", u.output_tokens) ]

/-- The `# Check for required credentials` block of `_validate_config`:
predefined providers need an `api_key` entry; a custom provider needs
the entry matching its auth scheme (defaulting to `none`). -/
def credCheck (provider : String) (config : LLMConfig)
    (credentials : List (String × String)) : Except CmdRxErr Unit :=
  if provider = "openai" ∨ provider = "anthropic" ∨ provider = "grok" then
    if ¬ hasCred credentials "api_key" then
      .error (.configurationError ("API key required for " ++ provider))
    else .ok ()
  else if provider = "custom" then
    if config.llm_auth_type.getD "none" = "api_key" ∧ ¬ hasCred credentials "api_key" then
      .error (.configurationError "API key required for custom provider")
    else if config.llm_auth_type.getD "none" = "bearer_token" ∧ ¬ hasCred credentials "bearer_token" then
      .error (.configurationError "Bearer token required for custom provider")
    else .ok ()
  else .ok ()

/-- `_validate_config`: empty provider, then empty model, then the
credential block, then the custom-provider base-URL check, raising at
the first violated condition. -/
def validateConfig (config : LLMConfig) (credentials : List (String × String)) :
    Except CmdRxErr Unit :=
  if isFalsy config.llm_provider then
    .error (.configurationError "No LLM provider configured")
  else if isFalsy config.llm_model then
    .error (.configurationError "No LLM model configured")
  else
    match credCheck (config.llm_provider.getD "") config credentials with
    | .error e => .error e
    | .ok _ =>
      if config.llm_provider.getD "" = "custom" ∧ isFalsy config.llm_base_url then
        .error (.configurationError "Base URL required for custom provider")
      else .ok ()

/-- The `OpenAI(...)` client value `_create_client` constructs. -/
structure OpenAIClient where
  api_key : String
  base_url : Option String
  timeout : Nat
deriving Repr, DecidableEq

/-- `_create_client`: the config's base URL is overridden by the fixed
constant for `openai` and `grok`; `custom` without a base URL is a
configuration error. -/
def createClient (provider : String) (config : LLMConfig)
    (credentials : List (String × String)) : Except CmdRxErr OpenAIClient :=
  let base_url := config.llm_base_url
  let api_key := (credsGet "api_key" credentials).getD "not-needed"
  let timeout := config.llm_timeout.getD 30
  if provider = "openai" then
    .ok ⟨api_key, some "https://api.openai.com/v1", timeout⟩
  else if provider = "grok" then
    .ok ⟨api_key, some "https://api.x.ai/v1", timeout⟩
  else if provider = "custom" ∧ isFalsy base_url then
    .error (.configurationError "Base URL required for custom provider")
  else
    .ok ⟨api_key, base_url, timeout⟩

/-- `_analyze_openai_compatible`: any exception from the client call or
the reply extraction is re-raised as `LLMError` with the
`OpenAI-compatible API error:` prefix; `choices[0]` on an empty list is
an `IndexError`. -/
def analyzeOpenAICompatible (config : LLMConfig)
    (call : Except NetExc OpenAIReply) : Except CmdRxErr LLMResponse :=
  match call with
  | .error e =>
      .error (.llmError ("OpenAI-compatible API error: " ++ e.message))
  | .ok response =>
    match response.choices with
    | [] => .error (.llmError "OpenAI-compatible API error: list index out of range")
    | choice :: _ =>
        .ok { content := choice.message.content,
              model := config.llm_model.getD "gpt-4",
              usage := response.usage.map openaiUsageDict }

/-- `_analyze_anthropic`: a missing API key raises
`ConfigurationError` before any call; the first content block's text is
taken, with `""` for an empty content list; any exception from the
client call is re-raised as `LLMError` with the `Anthropic API error:`
prefix. -/
def analyzeAnthropic (config : LLMConfig) (credentials : List (String × String))
    (call : Except NetExc AnthropicReply) : Except CmdRxErr LLMResponse :=
  if isFalsy (credsGet "api_key" credentials) then
    .error (.configurationError "Anthropic API key not configured")
  else
    match call with
    | .error e => .error (.llmError ("Anthropic API error: " ++ e.message))
    | .ok message =>
      .ok { content := some (match message.content with
              | [] => ""
              | block :: _ => block.text),
            model := config.llm_model.getD "claude-3-sonnet-20240229",
            usage := message.usage.map anthropicUsageDict }

/-- The `try` body of `analyze`: dispatch on the provider family, with
an unsupported identifier raising `LLMError` without consulting either
network collaborator. -/
def analyzeDispatch (provider : String) (config : LLMConfig)
    (credentials : List (String × String))
    (openaiCall : Except NetExc OpenAIReply)
    (anthropicCall : Except NetExc AnthropicReply) :
    Except CmdRxErr LLMResponse :=
  if provider = "openai" ∨ provider = "grok" ∨ provider = "custom" then
    analyzeOpenAICompatible config openaiCall
  else if provider = "anthropic" then
    analyzeAnthropic config credentials anthropicCall
  else
    .error (.llmError ("Unsupported provider: " ++ provider))

/-- `analyze`: run the dispatch, wrap every exception — including the
`LLMError`s the branches raise and the unsupported-provider `LLMError`
— as `LLMError("LLM analysis failed: ...")`, and stamp elapsed time
and provider onto a successful response. -/
def analyze (provider : String) (config : LLMConfig)
    (credentials : List (String × String))
    (openaiCall : Except NetExc OpenAIReply)
    (anthropicCall : Except NetExc AnthropicReply)
    (elapsed : Nat) : Except CmdRxErr LLMResponse :=
  match analyzeDispatch provider config credentials openaiCall anthropicCall with
  | .ok response =>
      .ok { response with response_time := elapsed, provider := provider }
  | .error e => .error (.llmError ("LLM analysis failed: " ++ e.message))

end CmdRx


namespace CmdRx

/-! ## Helper lemmas -/

/-- After `d[k] = v`, `k` maps to `v` and every other key is
unchanged. -/
theorem credsInsert_spec (k v : String) (creds : List (String × String)) :
    credsGet k (credsInsert k v creds) = some v ∧
      ∀ k', k' ≠ k → credsGet k' (credsInsert k v creds) = credsGet k' creds := by
  constructor
  · induction creds with
    | nil => simp [credsInsert, credsGet]
    | cons hd tl ih =>
      obtain ⟨k₀, v₀⟩ := hd
      by_cases h : k₀ = k
      · simp [credsInsert, h, credsGet]
      · simpa [credsInsert, h, credsGet] using ih
  · intro k' hk
    induction creds with
    | nil => simp [credsInsert, credsGet, Ne.symm hk]
    | cons hd tl ih =>
      obtain ⟨k₀, v₀⟩ := hd
      by_cases h : k₀ = k
      · subst h
        simp [credsInsert, credsGet, Ne.symm hk]
      · by_cases h' : k₀ = k'
        · simp [credsInsert, h, credsGet, h', hk]
        · simpa [credsInsert, h, credsGet, h'] using ih

end CmdRx

namespace CmdRx

/-! ## Claims about the structured-result parser -/

/-- C1: for every raw response text on which `json.loads` raises (the
text is not syntactically valid JSON), `_process_llm_response` yields
exactly the fallback dict, whose `analysis` field is the raw text
itself — a defined result, not an error. -/
theorem parse_invalid_json_gives_fallback (raw : String)
    (h : jsonLoads raw = none) :
    processLLMResponse raw =
      Json.obj
        [ ("analysis", Json.str raw),
          ("status", Json.str "info"),
          ("issues", Json.arr []),
          ("troubleshooting_steps", Json.arr []),
          ("suggested_fixes", Json.arr []),
          ("additional_info", Json.str "") ] := by
  simp [processLLMResponse, h, fallbackAnalysis]

/-- Witness for C1: the spec scenario `'not json at all'`. -/
theorem parse_invalid_json_gives_fallback_witness :
    jsonLoads "not json at all" = none ∧
      processLLMResponse "not json at all" =
        Json.obj
          [ ("analysis", Json.str "not json at all"),
            ("status", Json.str "info"),
            ("issues", Json.arr []),
            ("troubleshooting_steps", Json.arr []),
            ("suggested_fixes", Json.arr []),
            ("additional_info", Json.str "") ] :=
  ⟨rfl, parse_invalid_json_gives_fallback "not json at all" rfl⟩

/-- Counterexample for C6: `"[1, 2]"` is valid JSON whose top-level
shape is not an object, yet the parse step returns the decoded array,
not the §3 fallback object. -/
theorem parse_nonobject_not_fallback :
    processLLMResponse "[1, 2]" = Json.arr [Json.num "1", Json.num "2"] ∧
      processLLMResponse "[1, 2]" ≠
        Json.obj
          [ ("analysis", Json.str "[1, 2]"),
            ("status", Json.str "info"),
            ("issues", Json.arr []),
            ("troubleshooting_steps", Json.arr []),
            ("suggested_fixes", Json.arr []),
            ("additional_info", Json.str "") ] :=
  ⟨rfl, fun h => Json.noConfusion h⟩

/-- C6 (amended): the parse step is total — every input yields a
defined value — but only a `json.loads` failure triggers the fallback:
an input that decodes successfully (even to a non-object such as an
array, string, or number) is returned as the decoded value. -/
theorem parse_total_and_passthrough (raw : String) :
    (∃ v, jsonLoads raw = some v ∧ processLLMResponse raw = v) ∨
      (jsonLoads raw = none ∧ processLLMResponse raw = fallbackAnalysis raw) := by
  cases h : jsonLoads raw with
  | none => exact Or.inr ⟨rfl, by simp [processLLMResponse, h]⟩
  | some v => exact Or.inl ⟨v, rfl, by simp [processLLMResponse, h]⟩

end CmdRx

namespace CmdRx

/-- C7: a raw text that decodes to a JSON object is reproduced by the
parse step with every member exactly as decoded. -/
theorem parse_roundtrip_exact (raw : String) (ms : List (String × Json))
    (h : jsonLoads raw = some (Json.obj ms)) :
    processLLMResponse raw = Json.obj ms := by
  simp [processLLMResponse, h]

/-- Witness for C7: the spec scenario — the fully-populated
AnalysisResult payload parses to exactly that object, unchanged. -/
theorem parse_roundtrip_exact_witness :
    jsonLoads "\x7b\"analysis\":\"ok\",\"status\":\"success\",\"issues\":[],\"troubleshooting_steps\":[],\"suggested_fixes\":[],\"additional_info\":\"\"\x7d" =
      some (Json.obj
        [ ("analysis", Json.str "ok"),
          ("status", Json.str "success"),
          ("issues", Json.arr []),
          ("troubleshooting_steps", Json.arr []),
          ("suggested_fixes", Json.arr []),
          ("additional_info", Json.str "") ]) ∧
    processLLMResponse "\x7b\"analysis\":\"ok\",\"status\":\"success\",\"issues\":[],\"troubleshooting_steps\":[],\"suggested_fixes\":[],\"additional_info\":\"\"\x7d" =
      Json.obj
        [ ("analysis", Json.str "ok"),
          ("status", Json.str "success"),
          ("issues", Json.arr []),
          ("troubleshooting_steps", Json.arr []),
          ("suggested_fixes", Json.arr []),
          ("additional_info", Json.str "") ] :=
  ⟨rfl,
    parse_roundtrip_exact _
      [ ("analysis", Json.str "ok"),
        ("status", Json.str "success"),
        ("issues", Json.arr []),
        ("troubleshooting_steps", Json.arr []),
        ("suggested_fixes", Json.arr []),
        ("additional_info", Json.str "") ] rfl⟩

/-- Counterexample for C8: on `{"status": "success"}` — a valid JSON
object with the text fields missing — the consumer's defaults are
applied key-by-key, but the missing `analysis` text field defaults to
the string `No analysis provided`, not to the empty string the claim
requires. -/
theorem display_missing_text_default_ce :
    displayAnalysis (processLLMResponse "\x7b\"status\": \"success\"\x7d") =
      some
        { analysis := Json.str "No analysis provided",
          status := Json.str "success",
          issues := Json.arr [],
          troubleshooting_steps := Json.arr [],
          suggested_fixes := Json.arr [],
          additional_info := Json.str "" } ∧
    displayAnalysis (processLLMResponse "\x7b\"status\": \"success\"\x7d") ≠
      some
        { analysis := Json.str "",
          status := Json.str "success",
          issues := Json.arr [],
          troubleshooting_steps := Json.arr [],
          suggested_fixes := Json.arr [],
          additional_info := Json.str "" } := by
  refine ⟨rfl, fun h => ?_⟩
  have h' : displayAnalysis (processLLMResponse "\x7b\"status\": \"success\"\x7d") =
      some
        { analysis := Json.str "No analysis provided",
          status := Json.str "success",
          issues := Json.arr [],
          troubleshooting_steps := Json.arr [],
          suggested_fixes := Json.arr [],
          additional_info := Json.str "" } := rfl
  rw [h'] at h
  injection h with h1
  have h2 := congrArg DisplayedAnalysis.analysis h1
  exact absurd (Json.str.inj h2) (by decide)

/-- C8 (amended): for every input that decodes to a valid JSON object,
the consumer reads the parse result key-by-key, keeping each field that
is present and defaulting each missing one — the empty list for the
list fields, `info` for status, the empty string for additional_info,
and the string `No analysis provided` (not the empty string) for the
analysis text — never the all-or-nothing fallback. -/
theorem display_defaults_keywise (raw : String) (ms : List (String × Json))
    (h : jsonLoads raw = some (Json.obj ms)) :
    displayAnalysis (processLLMResponse raw) =
      some
        { analysis := (dictGet? "analysis" ms).getD (Json.str "No analysis provided"),
          status := (dictGet? "status" ms).getD (Json.str "info"),
          issues := (dictGet? "issues" ms).getD (Json.arr []),
          troubleshooting_steps :=
            (dictGet? "troubleshooting_steps" ms).getD (Json.arr []),
          suggested_fixes := (dictGet? "suggested_fixes" ms).getD (Json.arr []),
          additional_info := (dictGet? "additional_info" ms).getD (Json.str "") } := by
  simp [processLLMResponse, h, displayAnalysis]

/-- Witness for C8's amended claim: a payload carrying only `status`
keeps it and receives the per-key defaults for the rest. -/
theorem display_defaults_keywise_witness :
    jsonLoads "\x7b\"status\": \"success\"\x7d" =
        some (Json.obj [("status", Json.str "success")]) ∧
    displayAnalysis (processLLMResponse "\x7b\"status\": \"success\"\x7d") =
      some
        { analysis := Json.str "No analysis provided",
          status := Json.str "success",
          issues := Json.arr [],
          troubleshooting_steps := Json.arr [],
          suggested_fixes := Json.arr [],
          additional_info := Json.str "" } :=
  ⟨rfl, by
    simpa [dictGet?] using
      display_defaults_keywise "\x7b\"status\": \"success\"\x7d"
        [("status", Json.str "success")] rfl⟩

end CmdRx

namespace CmdRx

/-- C2: `_get_credential` is exactly the §4.1 resolution chain:
keyring, then the `CMDRX_<KEY>` environment variable, then the
credentials file, in that fixed order, the first source yielding a
non-empty value winning; each per-source yield swallows that source's
failure (a keyring exception, an unset variable, an unreadable file),
so resolution returns `none` rather than raising when all three are
exhausted. -/
theorem getCredential_is_ordered_chain (env : CredentialEnv) (key : String) :
    getCredential env key = resolveSpec env key := by
  unfold getCredential resolveSpec keyringYield envYield fileYield
  cases h : env.keyring with
  | error e =>
    cases henv : nonEmptyVal (env.getenv ("CMDRX_" ++ key.toUpper)) <;>
      simp [Option.orElse, henv]
  | ok v =>
    cases hv : nonEmptyVal v with
    | some c => simp [Option.orElse, hv]
    | none =>
      cases henv : nonEmptyVal (env.getenv ("CMDRX_" ++ key.toUpper)) <;>
        simp [Option.orElse, hv, henv]

/-- C5: `_store_credential` attempts the keyring first; on any keyring
exception it falls back to the credentials file, merging the new key
into the loaded pre-existing entries (the new key maps to the stored
value, every other key keeps its prior file value), written with
owner-only mode `0o600`; `SecurityError` is raised exactly when the
keyring failed and the file write also failed. -/
theorem storeCredential_fallback_spec (env : StoreEnv) (key value : String) :
    (env.keyringSet = .ok () → storeCredential env key value = .ok .keyring) ∧
    (∀ err, env.keyringSet = .error err → env.fileWrite = .ok () →
      storeCredential env key value =
          .ok (.file (credsInsert key value (loadedCreds env)) 0o600) ∧
        credsGet key (credsInsert key value (loadedCreds env)) = some value ∧
        ∀ k', k' ≠ key →
          credsGet k' (credsInsert key value (loadedCreds env)) =
            credsGet k' (loadedCreds env)) ∧
    (∀ e, storeCredential env key value = .error e →
      (∃ m, e = CmdRxErr.securityError m) ∧
        (∃ m, env.keyringSet = .error m) ∧ ∃ m, env.fileWrite = .error m) := by
  refine ⟨?_, ?_, ?_⟩
  · intro h
    simp [storeCredential, h]
  · intro err hk hw
    refine ⟨by simp [storeCredential, hk, hw], (credsInsert_spec key value _).1,
      (credsInsert_spec key value _).2⟩
  · intro e he
    cases hk : env.keyringSet with
    | ok u => simp [storeCredential, hk] at he
    | error m =>
      cases hw : env.fileWrite with
      | ok u => simp [storeCredential, hk, hw] at he
      | error m' =>
        simp [storeCredential, hk, hw] at he
        exact ⟨⟨_, he.symm⟩, ⟨m, rfl⟩, ⟨m', rfl⟩⟩

/-- Witness for C5: with the keyring disabled and a pre-existing file
entry `a ↦ b`, storing `k ↦ v` writes the merged mapping with mode
`0o600`, keeping the old entry. -/
theorem storeCredential_fallback_spec_witness :
    storeCredential
        { keyringSet := .error "keyring disabled",
          fileExists := true,
          fileRead := .ok [("a", "b")],
          fileWrite := .ok () } "k" "v" =
      .ok (.file [("a", "b"), ("k", "v")] 0o600) :=
  ((storeCredential_fallback_spec
      { keyringSet := .error "keyring disabled",
        fileExists := true,
        fileRead := .ok [("a", "b")],
        fileWrite := .ok () } "k" "v").2.1 "keyring disabled" rfl rfl).1

end CmdRx

namespace CmdRx

/-- C3: every failure of `analyze` — a transport exception on either
wire protocol, a missing-key `ConfigurationError`, or an unsupported
provider identifier — surfaces as the single `LLMError` kind wrapping
the upstream cause message; and an unsupported provider yields that
uniform error whatever the network collaborators would have returned,
i.e. without any network attempt. -/
theorem analyze_uniform_llm_error (provider : String) (config : LLMConfig)
    (credentials : List (String × String))
    (openaiCall : Except NetExc OpenAIReply)
    (anthropicCall : Except NetExc AnthropicReply) (elapsed : Nat) :
    (∀ e, analyze provider config credentials openaiCall anthropicCall elapsed =
        .error e →
      ∃ m, e = CmdRxErr.llmError ("LLM analysis failed: " ++ m)) ∧
    ((provider = "openai" ∨ provider = "grok" ∨ provider = "custom") →
      ∀ exc, openaiCall = .error exc →
        analyze provider config credentials openaiCall anthropicCall elapsed =
          .error (.llmError ("LLM analysis failed: " ++
            ("OpenAI-compatible API error: " ++ exc.message)))) ∧
    (provider = "anthropic" →
      isFalsy (credsGet "api_key" credentials) = false →
      ∀ exc, anthropicCall = .error exc →
        analyze provider config credentials openaiCall anthropicCall elapsed =
          .error (.llmError ("LLM analysis failed: " ++
            ("Anthropic API error: " ++ exc.message)))) ∧
    (provider ≠ "openai" → provider ≠ "grok" → provider ≠ "custom" →
      provider ≠ "anthropic" →
      ∀ oc ac, analyze provider config credentials oc ac elapsed =
        .error (.llmError ("LLM analysis failed: " ++
          ("Unsupported provider: " ++ provider)))) := by
  refine ⟨?_, ?_, ?_, ?_⟩
  · intro e he
    unfold analyze at he
    cases hd : analyzeDispatch provider config credentials openaiCall anthropicCall with
    | ok r => rw [hd] at he; exact absurd he (by simp)
    | error e' =>
      rw [hd] at he
      injection he with h
      exact ⟨e'.message, h.symm⟩
  · intro hfam exc hexc
    unfold analyze analyzeDispatch
    rw [if_pos hfam, hexc]
    simp [analyzeOpenAICompatible, CmdRxErr.message]
  · intro hprov hkey exc hexc
    subst hprov
    unfold analyze analyzeDispatch
    rw [hexc]
    simp [analyzeAnthropic, hkey, CmdRxErr.message]
  · intro h1 h2 h3 h4 oc ac
    unfold analyze analyzeDispatch
    simp [h1, h2, h3, h4, CmdRxErr.message]

/-- Witness for C3: the spec scenario — an OpenAI-path timeout
surfaces as `LLMError` carrying the upstream message. -/
theorem analyze_uniform_llm_error_witness :
    analyze "openai"
        { llm_provider := some "openai", llm_model := some "gpt-4",
          llm_auth_type := none, llm_base_url := none, llm_timeout := none }
        [] (.error (.timeout "Request timed out.")) (.ok { content := [], usage := none }) 5 =
      .error (.llmError ("LLM analysis failed: " ++
        ("OpenAI-compatible API error: " ++ "Request timed out."))) :=
  (analyze_uniform_llm_error "openai"
      { llm_provider := some "openai", llm_model := some "gpt-4",
        llm_auth_type := none, llm_base_url := none, llm_timeout := none }
      [] (.error (.timeout "Request timed out."))
      (.ok { content := [], usage := none }) 5).2.1
    (Or.inl rfl) (.timeout "Request timed out.") rfl

end CmdRx

namespace CmdRx

/-- The credential block rejects exactly when a predefined provider
lacks `api_key`, or a custom provider's auth scheme lacks its matching
credential. -/
theorem credCheck_ne_ok_iff (provider : String) (config : LLMConfig)
    (credentials : List (String × String)) :
    credCheck provider config credentials ≠ .ok () ↔
      ((provider = "openai" ∨ provider = "anthropic" ∨ provider = "grok") ∧
          hasCred credentials "api_key" = false) ∨
      (provider = "custom" ∧
        ((config.llm_auth_type.getD "none" = "api_key" ∧
            hasCred credentials "api_key" = false) ∨
         (config.llm_auth_type.getD "none" = "bearer_token" ∧
            hasCred credentials "bearer_token" = false))) := by
  unfold credCheck
  by_cases h1 : provider = "openai" ∨ provider = "anthropic" ∨ provider = "grok"
  · have hc : provider ≠ "custom" := by
      rcases h1 with h | h | h <;> subst h <;> decide
    by_cases h2 : hasCred credentials "api_key" <;> simp [h1, h2, hc]
  · by_cases h3 : provider = "custom"
    · subst h3
      by_cases h4 : config.llm_auth_type.getD "none" = "api_key"
      · by_cases h2 : hasCred credentials "api_key" <;>
          simp [h1, h4, h2]
      · by_cases h5 : config.llm_auth_type.getD "none" = "bearer_token"
        · by_cases h6 : hasCred credentials "bearer_token" <;>
            simp [h1, h4, h5, h6]
        · simp [h1, h4, h5]
    · simp [h1, h3]

/-- Every error the credential block raises is a `ConfigurationError`. -/
theorem credCheck_error_kind (provider : String) (config : LLMConfig)
    (credentials : List (String × String)) :
    ∀ e, credCheck provider config credentials = .error e →
      ∃ m, e = CmdRxErr.configurationError m := by
  intro e he
  unfold credCheck at he
  split_ifs at he
  all_goals (injection he with h; exact ⟨_, h.symm⟩)

end CmdRx

namespace CmdRx

/-- C4: `_validate_config` fails — always with `ConfigurationError` —
exactly when the provider is empty, the model is empty, a predefined
provider (openai/anthropic/grok) has no resolvable `api_key`
credential, or the provider is custom and either its auth scheme's
credential is missing or the base URL is empty; and in particular a
custom config with auth `none` and an empty base URL is rejected with
the empty-base-URL error. -/
theorem validateConfig_rejects_iff (config : LLMConfig)
    (credentials : List (String × String)) :
    ((validateConfig config credentials ≠ .ok ()) ↔
      (isFalsy config.llm_provider = true ∨
       isFalsy config.llm_model = true ∨
       ((config.llm_provider.getD "" = "openai" ∨
         config.llm_provider.getD "" = "anthropic" ∨
         config.llm_provider.getD "" = "grok") ∧
          hasCred credentials "api_key" = false) ∨
       (config.llm_provider.getD "" = "custom" ∧
         (isFalsy config.llm_base_url = true ∨
          (config.llm_auth_type.getD "none" = "api_key" ∧
            hasCred credentials "api_key" = false) ∨
          (config.llm_auth_type.getD "none" = "bearer_token" ∧
            hasCred credentials "bearer_token" = false))))) ∧
    (∀ e, validateConfig config credentials = .error e →
      ∃ m, e = CmdRxErr.configurationError m) ∧
    (∀ model t, isFalsy model = false →
      validateConfig
          { llm_provider := some "custom", llm_model := model,
            llm_auth_type := some "none", llm_base_url := some "",
            llm_timeout := t } credentials =
        .error (.configurationError "Base URL required for custom provider")) := by
  refine ⟨?_, ?_, ?_⟩
  · by_cases hp : isFalsy config.llm_provider
    · simp [validateConfig, hp]
    · by_cases hm : isFalsy config.llm_model
      · simp [validateConfig, hp, hm]
      · cases hcc : credCheck (config.llm_provider.getD "") config credentials with
        | error e =>
          have hne : credCheck (config.llm_provider.getD "") config credentials ≠
              .ok () := by simp [hcc]
          have hR := (credCheck_ne_ok_iff (config.llm_provider.getD "")
            config credentials).1 hne
          have hval : validateConfig config credentials = .error e := by
            simp [validateConfig, hp, hm, hcc]
          rw [hval]
          constructor
          · intro _
            rcases hR with ⟨hfam, hnk⟩ | ⟨hcust, hx⟩
            · exact Or.inr (Or.inr (Or.inl ⟨hfam, hnk⟩))
            · exact Or.inr (Or.inr (Or.inr ⟨hcust, Or.inr hx⟩))
          · intro _
            simp
        | ok u =>
          cases u
          have hok : ¬ (((config.llm_provider.getD "" = "openai" ∨
              config.llm_provider.getD "" = "anthropic" ∨
              config.llm_provider.getD "" = "grok") ∧
                hasCred credentials "api_key" = false) ∨
            (config.llm_provider.getD "" = "custom" ∧
              ((config.llm_auth_type.getD "none" = "api_key" ∧
                  hasCred credentials "api_key" = false) ∨
               (config.llm_auth_type.getD "none" = "bearer_token" ∧
                  hasCred credentials "bearer_token" = false)))) := by
            intro h
            exact (credCheck_ne_ok_iff (config.llm_provider.getD "")
              config credentials).2 h hcc
          have hval : validateConfig config credentials =
              (if config.llm_provider.getD "" = "custom" ∧
                  isFalsy config.llm_base_url then
                .error (.configurationError "Base URL required for custom provider")
              else .ok ()) := by
            simp [validateConfig, hp, hm, hcc]
          rw [hval]
          by_cases hcu : config.llm_provider.getD "" = "custom" ∧
              isFalsy config.llm_base_url
          · rw [if_pos hcu]
            constructor
            · intro _
              exact Or.inr (Or.inr (Or.inr ⟨hcu.1, Or.inl hcu.2⟩))
            · intro _
              simp
          · rw [if_neg hcu]
            constructor
            · intro hcontra
              exact absurd rfl hcontra
            · intro hR _
              rcases hR with h | h | h | ⟨hcust, hb | hb | hb⟩
              · exact hp h
              · exact hm h
              · exact hok (Or.inl h)
              · exact hcu ⟨hcust, hb⟩
              · exact hok (Or.inr ⟨hcust, Or.inl hb⟩)
              · exact hok (Or.inr ⟨hcust, Or.inr hb⟩)
  · intro e he
    unfold validateConfig at he
    by_cases hp2 : isFalsy config.llm_provider
    · rw [if_pos hp2] at he
      injection he with h
      exact ⟨_, h.symm⟩
    · rw [if_neg hp2] at he
      by_cases hm2 : isFalsy config.llm_model
      · rw [if_pos hm2] at he
        injection he with h
        exact ⟨_, h.symm⟩
      · rw [if_neg hm2] at he
        cases hcc : credCheck (config.llm_provider.getD "") config credentials with
        | error e' =>
          rw [hcc] at he
          injection he with h
          obtain ⟨m, hm'⟩ := credCheck_error_kind _ config credentials e' hcc
          exact ⟨m, by rw [← h, hm']⟩
        | ok u =>
          cases u
          rw [hcc] at he
          by_cases hcu : config.llm_provider.getD "" = "custom" ∧
              isFalsy config.llm_base_url
          · simp only [if_pos hcu] at he
            injection he with h
            exact ⟨_, h.symm⟩
          · simp [hcu] at he
  · intro model t hmodel
    simp [validateConfig, credCheck, hmodel,
      show isFalsy (some "custom") = false from rfl,
      show isFalsy (some "") = true from rfl,
      show (Option.getD (some "none") "none") = "none" from rfl]

/-- Witness for C4: the spec scenario — provider `custom`, auth
`none`, empty base URL — is rejected for the empty base URL. -/
theorem validateConfig_rejects_iff_witness :
    validateConfig
        { llm_provider := some "custom", llm_model := some "gpt-4",
          llm_auth_type := some "none", llm_base_url := some "",
          llm_timeout := none } [] =
      .error (.configurationError "Base URL required for custom provider") :=
  (validateConfig_rejects_iff
      { llm_provider := some "custom", llm_model := some "gpt-4",
        llm_auth_type := some "none", llm_base_url := some "",
        llm_timeout := none } []).2.2 (some "gpt-4") none rfl

end CmdRx

namespace CmdRx

/-- Counterexample for C9: a successful OpenAI-path reply whose first
choice carries a null `message.content` produces an `LLMResponse` whose
`content` is null — the OpenAI-compatible path does not guard against
it. -/
theorem openai_null_content_ce :
    analyze "openai"
        { llm_provider := some "openai", llm_model := some "gpt-4",
          llm_auth_type := none, llm_base_url := none, llm_timeout := none }
        []
        (.ok { choices := [{ message := { content := none } }], usage := none })
        (.ok { content := [], usage := none }) 7 =
      .ok { content := none, model := "gpt-4", usage := none,
            response_time := 7, provider := "openai" } ∧
    ({ content := none, model := "gpt-4", usage := none,
       response_time := 7, provider := "openai" } : LLMResponse).content = none :=
  ⟨rfl, rfl⟩

/-- C9 (amended): on the Anthropic path a successful response's
`content` is never null — the empty content list yields the empty
string, not an error — while the OpenAI-compatible path passes the
first choice's `message.content` through unchanged, so its result is
null exactly when the reply's content was. -/
theorem content_null_handling (config : LLMConfig)
    (credentials : List (String × String))
    (call : Except NetExc AnthropicReply) :
    (∀ resp, analyzeAnthropic config credentials call = .ok resp →
      resp.content.isSome = true) ∧
    (∀ msg resp, call = .ok msg → msg.content = [] →
      analyzeAnthropic config credentials call = .ok resp →
      resp.content = some "") ∧
    (∀ (reply : OpenAIReply) (resp : LLMResponse),
      analyzeOpenAICompatible config (.ok reply) = .ok resp →
      ∃ choice rest, reply.choices = choice :: rest ∧
        resp.content = choice.message.content) := by
  refine ⟨?_, ?_, ?_⟩
  · intro resp h
    unfold analyzeAnthropic at h
    split_ifs at h with hk
    cases hc : call with
    | error e => rw [hc] at h; exact absurd h (by simp)
    | ok msg =>
      rw [hc] at h
      injection h with h'
      rw [← h']
      rfl
  · intro msg resp hcall hempty h
    subst hcall
    unfold analyzeAnthropic at h
    split_ifs at h with hk
    injection h with h'
    rw [← h', hempty]
  · intro reply resp h
    have hred : analyzeOpenAICompatible config (Except.ok reply) =
        (match reply.choices with
         | [] => .error (.llmError "OpenAI-compatible API error: list index out of range")
         | choice :: _ =>
             .ok { content := choice.message.content,
                   model := config.llm_model.getD "gpt-4",
                   usage := reply.usage.map openaiUsageDict }) := rfl
    rw [hred] at h
    cases hch : reply.choices with
    | nil => rw [hch] at h; exact absurd h (by simp)
    | cons choice rest =>
      rw [hch] at h
      injection h with h'
      exact ⟨choice, rest, rfl, by rw [← h']⟩

/-- Witness for C9's amended claim: an Anthropic reply with an empty
content list yields `content = some ""`. -/
theorem content_null_handling_witness :
    ({ content := some "", model := "claude-3-sonnet-20240229", usage := none,
       response_time := 0, provider := "" } : LLMResponse).content = some "" :=
  (content_null_handling
      { llm_provider := some "anthropic", llm_model := none,
        llm_auth_type := none, llm_base_url := none, llm_timeout := none }
      [("api_key", "sk-test")] (.ok { content := [], usage := none })).2.1
    { content := [], usage := none }
    { content := some "", model := "claude-3-sonnet-20240229", usage := none,
      response_time := 0, provider := "" } rfl rfl rfl

/-- C10: for providers `openai` and `grok` the client is constructed
with the fixed constant base URL; the configured `llm_base_url` is
ignored, so two configurations differing only in `llm_base_url` yield
identical clients. -/
theorem createClient_fixed_base_url (c₁ c₂ : LLMConfig)
    (credentials : List (String × String))
    (hprov : c₁.llm_provider = c₂.llm_provider)
    (hmodel : c₁.llm_model = c₂.llm_model)
    (hauth : c₁.llm_auth_type = c₂.llm_auth_type)
    (htime : c₁.llm_timeout = c₂.llm_timeout)
    (hp : providerOf c₁ = "openai" ∨ providerOf c₁ = "grok") :
    createClient (providerOf c₁) c₁ credentials =
        createClient (providerOf c₂) c₂ credentials ∧
      createClient (providerOf c₁) c₁ credentials =
        .ok { api_key := (credsGet "api_key" credentials).getD "not-needed",
              base_url := some (if providerOf c₁ = "openai" then
                  "https://api.openai.com/v1" else "https://api.x.ai/v1"),
              timeout := c₁.llm_timeout.getD 30 } := by
  have hpp : providerOf c₂ = providerOf c₁ := by simp [providerOf, hprov]
  rcases hp with h | h <;>
    simp [createClient, hpp, h, htime]

/-- Witness for C10: two `openai` configs, one pointing
`llm_base_url` at a different host, produce the same client, and its
endpoint is the OpenAI constant. -/
theorem createClient_fixed_base_url_witness :
    createClient
        (providerOf
          { llm_provider := some "openai", llm_model := some "gpt-4",
            llm_auth_type := none, llm_base_url := some "http://other.example",
            llm_timeout := some 60 })
        { llm_provider := some "openai", llm_model := some "gpt-4",
          llm_auth_type := none, llm_base_url := some "http://other.example",
          llm_timeout := some 60 } [] =
      createClient
        (providerOf
          { llm_provider := some "openai", llm_model := some "gpt-4",
            llm_auth_type := none, llm_base_url := none, llm_timeout := some 60 })
        { llm_provider := some "openai", llm_model := some "gpt-4",
          llm_auth_type := none, llm_base_url := none, llm_timeout := some 60 } [] :=
  (createClient_fixed_base_url
      { llm_provider := some "openai", llm_model := some "gpt-4",
        llm_auth_type := none, llm_base_url := some "http://other.example",
        llm_timeout := some 60 }
      { llm_provider := some "openai", llm_model := some "gpt-4",
        llm_auth_type := none, llm_base_url := none, llm_timeout := some 60 }
      [] rfl rfl rfl rfl (Or.inl rfl)).1

end CmdRx
